import Mathlib

set_option maxRecDepth 100000

/-!
Verification of the chat-backend core (`src/main.py`): the reply generator
`generate_reply`, the `/api/chat` and `/api/history` handlers, and the storage
collaborator interface they consume.  Python strings are modelled as Lean
`String` (both are sequences of code points, so `len`/slicing agree with
`String.length`/`List.take` on `toList`), UTC timestamps as `Nat` ticks, and
the document store as an explicit state threaded through the handlers.
-/

/-- Python `str.isspace` on the ASCII whitespace characters that `str.strip()`
removes: space, tab, newline, carriage return, vertical tab, form feed.
(Python also strips some exotic Unicode whitespace; the claims here only
involve ASCII, so the model covers the ASCII set.) -/
def pyIsSpace (c : Char) : Bool :=
  c == ' ' || c == '\t' || c == '\n' || c == '\r' || c == Char.ofNat 11 || c == Char.ofNat 12

/-- Python `str.strip()` with no arguments: remove leading and trailing
whitespace. -/
def pyStrip (s : String) : String :=
  String.mk (((s.toList.dropWhile pyIsSpace).reverse.dropWhile pyIsSpace).reverse)

/-- The fixed fallback invitation string returned for blank input
(`src/main.py` line 88). -/
def fallbackReply : String := "I\x27m here. Ask me anything about code, ideas, or tech."

/-- First line of the reply template (`src/main.py` line 96). -/
def replyHeader : String := "⚡ Tanim AI • Insight\n"

/-- The echo line of the reply template quoting the (possibly truncated)
input (`src/main.py` line 97). -/
def replyEchoLine (t : String) : String := "You said: \"" ++ t ++ "\"\n\n"

/-- The fixed closing paragraph of the reply template
(`src/main.py` lines 98-99). -/
def replyClosing : String :=
  "Here\x27s a thoughtful response: I can help you plan, outline, and implement this. " ++
  "If you\x27d like, ask for a step-by-step plan or a quick prototype."

/-- `generate_reply` from `src/main.py` lines 82-100: blank input gets the
fixed fallback; otherwise the stripped text, truncated to 117 characters plus
an ellipsis when it exceeds 120 characters, is embedded in the template. -/
def generate_reply (user_text : String) : String :=
  if pyStrip user_text = "" then
    fallbackReply
  else
    let summary_hint := pyStrip user_text
    let summary_hint :=
      if summary_hint.length > 120 then String.mk (summary_hint.toList.take 117) ++ "..."
      else summary_hint
    replyHeader ++ replyEchoLine summary_hint ++ replyClosing

/-- Substring test used to formalise "embeds the text": `needle` occurs
contiguously somewhere in `hay`. -/
def strContains (hay needle : String) : Bool :=
  (List.range (hay.toList.length + 1)).any (fun i => needle.toList.isPrefixOf (hay.toList.drop i))

/-- A persisted message document (`src/main.py` lines 110-117 and 122-129;
data model of the spec §3).  `created_at`/`updated_at` are `Option` because a
document read back from the store may lack them (`d.get("created_at", ...)`
on lines 135 and 148 guards exactly that). -/
structure Doc where
  session_id : String
  role : String
  content : String
  model : String
  created_at : Option Nat
  updated_at : Option Nat
deriving DecidableEq, Repr

/-- The document store's state: the documents of every collection in
insertion order, each tagged with its collection name. -/
structure Storage where
  colls : List (String × Doc)
deriving DecidableEq, Repr

/-- Modelled from the spec: `create_document(collection, doc)` of the storage
collaborator (`database.py`, imported by `src/main.py` line 8 but not in the
repository snapshot).  Spec §4.3: "persists one record". -/
def create_document (st : Storage) (coll : String) (doc : Doc) : Storage :=
  ⟨st.colls ++ [(coll, doc)]⟩

/-- Modelled from the spec: `get_documents(collection, filter, limit)` of the
storage collaborator (`database.py`, not in the repository snapshot).
Spec §4.3: "returns up to `limit` matching records; filter is an exact-match
predicate over named fields (here: `session_id` equality)", and the records
are the "most recent within the limit", so the model returns the last
`limit` matching documents in insertion order. -/
def get_documents (st : Storage) (coll : String) (sid : String) (limit : Nat) : List Doc :=
  let matching := (st.colls.filter (fun p => decide (p.1 = coll ∧ p.2.session_id = sid))).map Prod.snd
  matching.drop (matching.length - limit)

/-- `ChatRequest` from `src/main.py` lines 21-24. -/
structure ChatRequest where
  session_id : String
  message : String
  model : Option String
deriving DecidableEq, Repr

/-- `ChatMessage` from `src/main.py` lines 27-30. -/
structure ChatMessage where
  role : String
  content : String
  created_at : Nat
deriving DecidableEq, Repr

/-- `ChatResponse` from `src/main.py` lines 33-35. -/
structure ChatResponse where
  session_id : String
  messages : List ChatMessage
deriving DecidableEq, Repr

/-- How a request can fail: an `HTTPException(status_code, detail)` raised by
a handler, or rejection by pydantic validation before the handler runs. -/
inductive ApiError where
  | http (status : Nat) (detail : String)
  | validation
deriving DecidableEq, Repr

/-- One storage access, recorded so that theorems can speak about which
accesses a request performs. -/
inductive StorageOp where
  | create (coll : String) (doc : Doc)
  | query (coll : String) (sid : String) (limit : Nat)
deriving DecidableEq, Repr

/-- The user document built by `chat` (`src/main.py` lines 110-117). -/
def user_doc (req : ChatRequest) (now : Nat) : Doc :=
  { session_id := req.session_id
    role := "user"
    content := req.message
    model := req.model.getD "tanim-stub"
    created_at := some now
    updated_at := some now }

/-- The assistant document built by `chat` (`src/main.py` lines 122-129). -/
def asst_doc (req : ChatRequest) (now : Nat) : Doc :=
  { session_id := req.session_id
    role := "assistant"
    content := generate_reply req.message
    model := req.model.getD "tanim-stub"
    created_at := some now
    updated_at := some now }

/-- Conversion of a fetched document into a response message
(`src/main.py` lines 134-137 and 147-150): a missing `created_at` falls back
to the current UTC time `now`. -/
def doc_to_message (now : Nat) (d : Doc) : ChatMessage :=
  { role := d.role, content := d.content, created_at := d.created_at.getD now }

/-- The `chat` handler (`src/main.py` lines 103-138).  `db` is the
process-wide storage handle (`None` when unconfigured); `now` models
`datetime.now(timezone.utc)` at the time of the request.  Returns the
response or error, the storage state after the request, and the storage
accesses performed. -/
def chat (db : Option Unit) (st : Storage) (now : Nat) (req : ChatRequest) :
    Except ApiError ChatResponse × Storage × List StorageOp :=
  if db = none then
    (Except.error (ApiError.http 500 "Database not configured"), st, [])
  else
    let st1 := create_document st "message" (user_doc req now)
    let st2 := create_document st1 "message" (asst_doc req now)
    let docs := get_documents st2 "message" req.session_id 50
    (Except.ok { session_id := req.session_id, messages := docs.map (doc_to_message now) },
      st2,
      [StorageOp.create "message" (user_doc req now),
       StorageOp.create "message" (asst_doc req now),
       StorageOp.query "message" req.session_id 50])

/-- `POST /api/chat` as seen by the client: pydantic validates the request
body (`message` has `min_length=1`, `src/main.py` line 23) before the `chat`
handler runs; an invalid body is rejected with no handler execution. -/
def chatEndpoint (db : Option Unit) (st : Storage) (now : Nat) (req : ChatRequest) :
    Except ApiError ChatResponse × Storage × List StorageOp :=
  if 1 ≤ req.message.length then chat db st now req
  else (Except.error ApiError.validation, st, [])

/-- The `history` handler / `GET /api/history` (`src/main.py` lines 141-151).
Read-only: returns the response or error and the storage accesses
performed. -/
def history (db : Option Unit) (st : Storage) (now : Nat) (session_id : String) :
    Except ApiError ChatResponse × List StorageOp :=
  if db = none then
    (Except.error (ApiError.http 500 "Database not configured"), [])
  else
    let docs := get_documents st "message" session_id 50
    (Except.ok { session_id := session_id, messages := docs.map (doc_to_message now) },
      [StorageOp.query "message" session_id 50])

/-- The messages of a request's result (empty on error). -/
def resultMessages : Except ApiError ChatResponse → List ChatMessage
  | Except.ok r => r.messages
  | Except.error _ => []

/-- The documents written by a list of storage accesses, in order. -/
def writesOf : List StorageOp → List (String × Doc)
  | [] => []
  | StorageOp.create c d :: rest => (c, d) :: writesOf rest
  | StorageOp.query _ _ _ :: rest => writesOf rest

lemma length_get_documents (st : Storage) (coll sid : String) (lim : Nat) :
    (get_documents st coll sid lim).length ≤ lim := by
  unfold get_documents
  simp only [List.length_drop]
  omega

lemma drop_last_two {α : Type _} (l : List α) (x y : α) (lim : Nat) (h2 : 2 ≤ lim) :
    2 ≤ ((l ++ [x, y]).drop ((l ++ [x, y]).length - lim)).length ∧
    ((l ++ [x, y]).drop ((l ++ [x, y]).length - lim)).drop
      (((l ++ [x, y]).drop ((l ++ [x, y]).length - lim)).length - 2) = [x, y] := by
  have hml : (l ++ [x, y]).length = l.length + 2 := by simp
  have hrl := List.length_drop ((l ++ [x, y]).length - lim) (l ++ [x, y])
  refine ⟨by omega, ?_⟩
  rw [List.drop_drop]
  have heq : (l ++ [x, y]).length - lim +
      (((l ++ [x, y]).drop ((l ++ [x, y]).length - lim)).length - 2) = l.length := by omega
  rw [heq]
  exact List.drop_left l [x, y]

lemma pyStrip_eq_empty_of_all_space (s : String) (h : s.toList.all pyIsSpace = true) :
    pyStrip s = "" := by
  unfold pyStrip
  have h1 : s.toList.dropWhile pyIsSpace = [] := by
    rw [List.dropWhile_eq_nil_iff]
    intro x hx
    exact List.all_eq_true.mp h x hx
  rw [h1]
  rfl

/-- C4 counterexample: the input " z" is non-empty and well under 120
characters, yet the full input text " z" appears nowhere in the output of
`generate_reply` (the echo line quotes the stripped text "z"). -/
theorem chat_echo_short_counterexample :
    (" z" : String) ≠ "" ∧ (" z" : String).length ≤ 120 ∧
    strContains (generate_reply " z") " z" = false := by decide

/-- C4 (amended): for every input whose whitespace-stripped form is non-empty
and of length at most 120, `generate_reply` embeds the stripped text verbatim
in the echo line (hence the full input text whenever the input carries no
leading or trailing whitespace). -/
theorem chat_echo_short (u : String) (h1 : pyStrip u ≠ "")
    (h2 : (pyStrip u).length ≤ 120) :
    generate_reply u = replyHeader ++ replyEchoLine (pyStrip u) ++ replyClosing := by
  simp only [generate_reply]
  rw [if_neg h1, if_neg (not_lt.mpr h2)]

/-- C4 witness: the amended statement at the concrete input " z". -/
theorem chat_echo_short_witness :
    pyStrip " z" ≠ "" ∧ (pyStrip " z").length ≤ 120 ∧
    generate_reply " z" = replyHeader ++ replyEchoLine (pyStrip " z") ++ replyClosing :=
  ⟨by decide, by decide, chat_echo_short " z" (by decide) (by decide)⟩

/-- C5 counterexample: the input "a" followed by 120 spaces is longer than
120 characters, yet the output of `generate_reply` nowhere contains the first
117 characters of the input followed by the ellipsis marker (the stripped
text "a" is only 1 character, so no truncation happens at all). -/
theorem chat_echo_long_counterexample :
    120 < ("a" ++ String.mk (List.replicate 120 ' ')).length ∧
    strContains (generate_reply ("a" ++ String.mk (List.replicate 120 ' ')))
      (String.mk (("a" ++ String.mk (List.replicate 120 ' ')).toList.take 117) ++ "...") =
      false := by decide

/-- C5 (amended): for every input whose whitespace-stripped form is longer
than 120 characters, `generate_reply` embeds exactly the first 117 characters
of the stripped text followed by the 3-character ellipsis marker "..." in the
echo line, and the echoed text is never the full stripped text. -/
theorem chat_echo_truncated (u : String) (h : 120 < (pyStrip u).length) :
    generate_reply u =
      replyHeader ++ replyEchoLine (String.mk ((pyStrip u).toList.take 117) ++ "...") ++
        replyClosing ∧
    String.mk ((pyStrip u).toList.take 117) ++ "..." ≠ pyStrip u := by
  constructor
  · simp only [generate_reply]
    rw [if_neg (fun h0 => by rw [h0] at h; exact absurd h (by decide)), if_pos h]
  · intro heq
    have hlen : (String.mk ((pyStrip u).toList.take 117) ++ "...").length =
        (pyStrip u).length := congrArg String.length heq
    rw [String.length_append] at hlen
    have h1 : (String.mk ((pyStrip u).toList.take 117)).length = min 117 (pyStrip u).length := by
      show ((pyStrip u).toList.take 117).length = _
      rw [List.length_take]
      rfl
    have h2 : ("..." : String).length = 3 := rfl
    rw [h1, h2] at hlen
    have h3 : min 117 (pyStrip u).length = 117 := Nat.min_eq_left (by omega)
    omega

/-- C5 witness: the amended statement at a concrete 121-character input. -/
theorem chat_echo_truncated_witness :
    120 < (pyStrip (String.mk (List.replicate 121 'b'))).length ∧
    (generate_reply (String.mk (List.replicate 121 'b')) =
      replyHeader ++
        replyEchoLine
          (String.mk ((pyStrip (String.mk (List.replicate 121 'b'))).toList.take 117) ++ "...") ++
        replyClosing ∧
     String.mk ((pyStrip (String.mk (List.replicate 121 'b'))).toList.take 117) ++ "..." ≠
       pyStrip (String.mk (List.replicate 121 'b'))) :=
  ⟨by decide, chat_echo_truncated _ (by decide)⟩

/-- C6: for every input that is empty or consists only of whitespace,
`generate_reply` returns exactly the fixed fallback invitation string. -/
theorem chat_blank_fallback (u : String) (h : u.toList.all pyIsSpace = true) :
    generate_reply u = fallbackReply := by
  unfold generate_reply
  rw [if_pos (pyStrip_eq_empty_of_all_space u h)]

/-- C6 witness: the statement at the concrete all-whitespace input "  ". -/
theorem chat_blank_fallback_witness :
    ("  " : String).toList.all pyIsSpace = true ∧ generate_reply "  " = fallbackReply :=
  ⟨by decide, chat_blank_fallback "  " (by decide)⟩

/-- C7: `generate_reply` is deterministic — it is a pure function of its
input string (the source performs no I/O, reads no state and uses no
randomness), so two evaluations on the same input give identical output. -/
theorem chat_reply_deterministic (s t : String) (h : s = t) :
    generate_reply s = generate_reply t := by rw [h]

/-- C7 witness: determinism at the concrete input "hi". -/
theorem chat_reply_deterministic_witness :
    ("hi" : String) = "hi" ∧ generate_reply "hi" = generate_reply "hi" :=
  ⟨rfl, chat_reply_deterministic "hi" "hi" rfl⟩

/-- C1: every successful `POST /api/chat` call writes exactly two documents,
first the user document carrying the request's message, then the assistant
document carrying the generated reply, both with the request's session id;
the final storage state is the initial one with exactly those two documents
appended. -/
theorem chat_writes_user_then_assistant (st : Storage) (now : Nat) (req : ChatRequest)
    (hm : 1 ≤ req.message.length) :
    (chatEndpoint (some ()) st now req).1 =
      Except.ok
        { session_id := req.session_id
          messages :=
            (get_documents
              (create_document (create_document st "message" (user_doc req now)) "message"
                (asst_doc req now)) "message" req.session_id 50).map (doc_to_message now) } ∧
    writesOf (chatEndpoint (some ()) st now req).2.2 =
      [("message", user_doc req now), ("message", asst_doc req now)] ∧
    (chatEndpoint (some ()) st now req).2.1 =
      ⟨st.colls ++ [("message", user_doc req now), ("message", asst_doc req now)]⟩ ∧
    (user_doc req now).role = "user" ∧
    (user_doc req now).content = req.message ∧
    (user_doc req now).session_id = req.session_id ∧
    (asst_doc req now).role = "assistant" ∧
    (asst_doc req now).content = generate_reply req.message ∧
    (asst_doc req now).session_id = req.session_id := by
  refine ⟨?_, ?_, ?_, rfl, rfl, rfl, rfl, rfl, rfl⟩
  · simp [chatEndpoint, chat, hm]
  · simp [chatEndpoint, chat, hm, writesOf]
  · simp [chatEndpoint, chat, hm, create_document]

/-- C1 witness: the statement at a concrete request against empty storage. -/
theorem chat_writes_user_then_assistant_witness :
    1 ≤ ("hello" : String).length ∧
    writesOf (chatEndpoint (some ()) ⟨[]⟩ 7 ⟨"s1", "hello", none⟩).2.2 =
      [("message", user_doc ⟨"s1", "hello", none⟩ 7),
       ("message", asst_doc ⟨"s1", "hello", none⟩ 7)] :=
  ⟨by decide, (chat_writes_user_then_assistant ⟨[]⟩ 7 ⟨"s1", "hello", none⟩ (by decide)).2.1⟩

/-- C2: when the storage handle is `None`, both `POST /api/chat` (with a
request that passes validation) and `GET /api/history` fail with HTTP 500 and
the fixed detail "Database not configured", performing no storage access and
leaving the storage state unchanged. -/
theorem storage_unconfigured_500 (st : Storage) (now : Nat) (req : ChatRequest)
    (sid : String) (hm : 1 ≤ req.message.length) :
    chatEndpoint none st now req =
      (Except.error (ApiError.http 500 "Database not configured"), st, []) ∧
    history none st now sid =
      (Except.error (ApiError.http 500 "Database not configured"), []) := by
  constructor
  · simp [chatEndpoint, chat, hm]
  · simp [history]

/-- C2 witness: the statement at a concrete request and session. -/
theorem storage_unconfigured_500_witness :
    1 ≤ ("hi" : String).length ∧
    chatEndpoint none ⟨[]⟩ 0 ⟨"s1", "hi", none⟩ =
      (Except.error (ApiError.http 500 "Database not configured"), ⟨[]⟩, []) ∧
    history none ⟨[]⟩ 0 "s1" =
      (Except.error (ApiError.http 500 "Database not configured"), []) :=
  ⟨by decide, storage_unconfigured_500 ⟨[]⟩ 0 ⟨"s1", "hi", none⟩ "s1" (by decide)⟩

/-- C3: a `POST /api/chat` request whose message is the empty string is
rejected by validation before the handler runs, whatever the storage handle:
the result is a validation error, no storage access is performed, and the
storage state is unchanged. -/
theorem empty_message_rejected (db : Option Unit) (st : Storage) (now : Nat)
    (req : ChatRequest) (h : req.message = "") :
    chatEndpoint db st now req = (Except.error ApiError.validation, st, []) := by
  simp [chatEndpoint, h]

/-- C3 witness: the statement at a concrete empty-message request. -/
theorem empty_message_rejected_witness :
    (ChatRequest.mk "s1" "" none).message = "" ∧
    chatEndpoint (some ()) ⟨[]⟩ 0 ⟨"s1", "", none⟩ =
      (Except.error ApiError.validation, ⟨[]⟩, []) :=
  ⟨rfl, empty_message_rejected (some ()) ⟨[]⟩ 0 ⟨"s1", "", none⟩ rfl⟩

/-- C8: for every storage state — in particular after any number of chat
turns, also more than 50 — `GET /api/history` returns at most 50 messages. -/
theorem history_window_at_most_50 (st : Storage) (now : Nat) (sid : String) :
    (resultMessages (history (some ()) st now sid).1).length ≤ 50 := by
  have h : resultMessages (history (some ()) st now sid).1 =
      (get_documents st "message" sid 50).map (doc_to_message now) := by
    simp [history, resultMessages]
  rw [h, List.length_map]
  exact length_get_documents st "message" sid 50

/-- C9: every successful `POST /api/chat` response contains at least two
messages, and its two newest entries (the last two of the returned window)
are exactly the user message and the assistant reply just written by that
call. -/
theorem chat_response_ends_with_fresh_pair (st : Storage) (now : Nat) (req : ChatRequest)
    (hm : 1 ≤ req.message.length) :
    2 ≤ (resultMessages (chatEndpoint (some ()) st now req).1).length ∧
    (resultMessages (chatEndpoint (some ()) st now req).1).drop
      ((resultMessages (chatEndpoint (some ()) st now req).1).length - 2) =
      [ChatMessage.mk "user" req.message now,
       ChatMessage.mk "assistant" (generate_reply req.message) now] := by
  have hstep : resultMessages (chatEndpoint (some ()) st now req).1 =
      (get_documents
        (create_document (create_document st "message" (user_doc req now)) "message"
          (asst_doc req now)) "message" req.session_id 50).map (doc_to_message now) := by
    simp [chatEndpoint, chat, hm, resultMessages]
  have hdocs : get_documents
      (create_document (create_document st "message" (user_doc req now)) "message"
        (asst_doc req now)) "message" req.session_id 50 =
      (((st.colls.filter
          (fun p => decide (p.1 = "message" ∧ p.2.session_id = req.session_id))).map Prod.snd ++
        [user_doc req now, asst_doc req now]).drop
        (((st.colls.filter
            (fun p => decide (p.1 = "message" ∧ p.2.session_id = req.session_id))).map Prod.snd ++
          [user_doc req now, asst_doc req now]).length - 50)) := by
    simp [get_documents, create_document, List.filter_append, user_doc, asst_doc]
  obtain ⟨hlen2, hdrop⟩ :=
    drop_last_two
      ((st.colls.filter
        (fun p => decide (p.1 = "message" ∧ p.2.session_id = req.session_id))).map Prod.snd)
      (user_doc req now) (asst_doc req now) 50 (by omega)
  rw [hstep, hdocs]
  constructor
  · rw [List.length_map]
    exact hlen2
  · rw [List.length_map, ← List.map_drop, hdrop]
    simp [doc_to_message, user_doc, asst_doc]

/-- C9 witness: the statement at a concrete request against empty storage. -/
theorem chat_response_ends_with_fresh_pair_witness :
    1 ≤ ("hello" : String).length ∧
    (2 ≤ (resultMessages (chatEndpoint (some ()) ⟨[]⟩ 7 ⟨"s1", "hello", none⟩).1).length ∧
     (resultMessages (chatEndpoint (some ()) ⟨[]⟩ 7 ⟨"s1", "hello", none⟩).1).drop
       ((resultMessages (chatEndpoint (some ()) ⟨[]⟩ 7 ⟨"s1", "hello", none⟩).1).length - 2) =
       [ChatMessage.mk "user" "hello" 7,
        ChatMessage.mk "assistant" (generate_reply "hello") 7]) :=
  ⟨by decide, chat_response_ends_with_fresh_pair ⟨[]⟩ 7 ⟨"s1", "hello", none⟩ (by decide)⟩

/-- C10: a stored document lacking `created_at` makes neither handler fail:
`GET /api/history` and the `chat` handler both succeed, and such a document
is rendered in the response with the current time `now` substituted as its
`created_at`. -/
theorem missing_created_at_defaults_to_now (st : Storage) (now : Nat) (sid : String)
    (req : ChatRequest) (d : Doc) (hd : d.created_at = none)
    (hmem : d ∈ get_documents st "message" sid 50) :
    (∃ r, (history (some ()) st now sid).1 = Except.ok r) ∧
    (∃ r, (chat (some ()) st now req).1 = Except.ok r) ∧
    ChatMessage.mk d.role d.content now ∈ resultMessages (history (some ()) st now sid).1 ∧
    (d ∈ get_documents ((chat (some ()) st now req).2.1) "message" req.session_id 50 →
      ChatMessage.mk d.role d.content now ∈ resultMessages (chat (some ()) st now req).1) := by
  have hh : resultMessages (history (some ()) st now sid).1 =
      (get_documents st "message" sid 50).map (doc_to_message now) := by
    simp [history, resultMessages]
  have hc : resultMessages (chat (some ()) st now req).1 =
      (get_documents ((chat (some ()) st now req).2.1) "message" req.session_id 50).map
        (doc_to_message now) := by
    simp [chat, resultMessages]
  refine ⟨?_, ?_, ?_, ?_⟩
  · exact ⟨{ session_id := sid,
             messages := (get_documents st "message" sid 50).map (doc_to_message now) },
           by simp [history]⟩
  · exact ⟨{ session_id := req.session_id,
             messages :=
               (get_documents
                 (create_document (create_document st "message" (user_doc req now)) "message"
                   (asst_doc req now)) "message" req.session_id 50).map (doc_to_message now) },
           by simp [chat]⟩
  · rw [hh]
    exact List.mem_map.mpr ⟨d, hmem, by simp [doc_to_message, hd]⟩
  · intro hmem2
    rw [hc]
    exact List.mem_map.mpr ⟨d, hmem2, by simp [doc_to_message, hd]⟩

/-- C10 witness: the statement at a concrete storage holding one document
without `created_at`. -/
theorem missing_created_at_defaults_to_now_witness :
    (Doc.mk "s1" "user" "old" "tanim-stub" none none).created_at = none ∧
    Doc.mk "s1" "user" "old" "tanim-stub" none none ∈
      get_documents ⟨[("message", Doc.mk "s1" "user" "old" "tanim-stub" none none)]⟩
        "message" "s1" 50 ∧
    ChatMessage.mk "user" "old" 9 ∈
      resultMessages
        (history (some ()) ⟨[("message", Doc.mk "s1" "user" "old" "tanim-stub" none none)]⟩
          9 "s1").1 :=
  ⟨rfl, by decide,
    (missing_created_at_defaults_to_now
      ⟨[("message", Doc.mk "s1" "user" "old" "tanim-stub" none none)]⟩ 9 "s1"
      ⟨"s1", "hi", none⟩ (Doc.mk "s1" "user" "old" "tanim-stub" none none) rfl
      (by decide)).2.2.1⟩
